import Mathlib

/-!
Verification of the paired-device relay (claude-app).

Shallow embedding conventions:
* Node `Buffer`s / `Uint8Array`s are `List Nat` with every element `< 256`;
  JS strings used as byte sources (UTF-8 of ASCII text) are `List Nat` via
  `utf8ascii`.
* JS `number` sequence counters are `Int` (they start at `0` / `-1`).
* A WebSocket connection object is identified by a `Nat` connection id;
  sending on it is an explicit effect in an effect list.
* External cryptographic primitives that the repository only calls
  (AES-256-GCM from node `crypto` / `@noble/ciphers`, the P-256 ECDH scalar
  multiplication from node `crypto` / `@noble/curves`, HMAC-SHA256) are
  abstracted as structures / function parameters carrying exactly the
  interface facts the library documents (lengths, byte ranges, GCM
  decrypt-of-encrypt); everything implemented in the repository itself is
  translated line by line.
-/

-- ══════════════════════════════════════════════════════════════════════
-- Base64 (Node `Buffer.toString('base64')` / `Buffer.from(_, 'base64')`,
-- RFC 4648 with '=' padding)
-- ══════════════════════════════════════════════════════════════════════

/-- The standard base64 alphabet. -/
def b64Alphabet : List Char :=
  ['A','B','C','D','E','F','G','H','I','J','K','L','M','N','O','P',
   'Q','R','S','T','U','V','W','X','Y','Z',
   'a','b','c','d','e','f','g','h','i','j','k','l','m','n','o','p',
   'q','r','s','t','u','v','w','x','y','z',
   '0','1','2','3','4','5','6','7','8','9','+','/']

/-- Sextet to base64 character. -/
def encodeChar (n : Nat) : Char := b64Alphabet.getD n '='

/-- Position of a character in a character list (0 when absent). -/
def b64IndexAux (c : Char) : List Char → Nat → Nat
  | [], _ => 0
  | a :: rest, i => if a == c then i else b64IndexAux c rest (i + 1)

/-- Base64 character to sextet. -/
def decodeChar (c : Char) : Nat := b64IndexAux c b64Alphabet 0

/-- Base64-encode a byte list, three bytes at a time, '='-padded. -/
def b64encodeList : List Nat → List Char
  | [] => []
  | [a] => [encodeChar (a / 4), encodeChar (a % 4 * 16), '=', '=']
  | [a, b] => [encodeChar (a / 4), encodeChar (a % 4 * 16 + b / 16),
               encodeChar (b % 16 * 4), '=']
  | a :: b :: c :: rest =>
      encodeChar (a / 4) :: encodeChar (a % 4 * 16 + b / 16) ::
      encodeChar (b % 16 * 4 + c / 64) :: encodeChar (c % 64) ::
      b64encodeList rest

/-- Base64-decode a character list, four characters at a time. -/
def b64decodeList : List Char → List Nat
  | c1 :: c2 :: c3 :: c4 :: rest =>
      if c3 == '=' then
        [decodeChar c1 * 4 + decodeChar c2 / 16]
      else if c4 == '=' then
        [decodeChar c1 * 4 + decodeChar c2 / 16,
         decodeChar c2 % 16 * 16 + decodeChar c3 / 4]
      else
        (decodeChar c1 * 4 + decodeChar c2 / 16) ::
        (decodeChar c2 % 16 * 16 + decodeChar c3 / 4) ::
        (decodeChar c3 % 4 * 64 + decodeChar c4) ::
        b64decodeList rest
  | _ => []

/-- Source `Buffer.prototype.toString('base64')`. -/
def b64encode (bs : List Nat) : String := ⟨b64encodeList bs⟩

/-- Source `Buffer.from(s, 'base64')`. -/
def b64decode (s : String) : List Nat := b64decodeList s.data

/-- UTF-8 bytes of an ASCII string (`Buffer.from(s, 'utf-8')` /
`TextEncoder.encode` restricted to the ASCII inputs the code uses). -/
def utf8ascii (s : String) : List Nat := s.data.map Char.toNat

-- ══════════════════════════════════════════════════════════════════════
-- E2EE crypto core: desktop side is src/unnamed/part_004 (generateKeyPair,
-- deriveSession, encrypt, decrypt, hkdfSha256); the mobile side
-- (src/mobile/src/screens/QRScannerScreen.tsx) implements the same wire
-- format with @noble primitives.
-- ══════════════════════════════════════════════════════════════════════

/-- Source `IV_LENGTH` from the E2EE module: 96-bit IV for GCM. -/
def IV_LENGTH : Nat := 12

/-- Source `TAG_LENGTH` from the E2EE module: 128-bit auth tag. -/
def TAG_LENGTH : Nat := 16

/-- Modelled from the spec: the AES-256-GCM primitive the repository calls
(`crypto.createCipheriv('aes-256-gcm', …)` on desktop, `@noble/ciphers`
`gcm` on mobile); the library itself is not in the repository, so it is
abstracted as a pair of functions with the documented interface facts:
the tag is 16 bytes, outputs are bytes, and decrypting an encryption with
the same key and IV authenticates and returns the plaintext. -/
structure GCM where
  enc : List Nat → List Nat → List Nat → List Nat × List Nat
  dec : List Nat → List Nat → List Nat → List Nat → Option (List Nat)
  tag_length : ∀ k iv m, (enc k iv m).2.length = 16
  enc_bytes : ∀ k iv m, ∀ b ∈ (enc k iv m).1, b < 256
  tag_bytes : ∀ k iv m, ∀ b ∈ (enc k iv m).2, b < 256
  dec_enc : ∀ k iv m, (∀ b ∈ m, b < 256) →
    dec k iv (enc k iv m).1 (enc k iv m).2 = some m

/-- Source `E2EESession` (desktop): sharedSecret, HKDF-derived AES key, outbound
`seq`, last-seen inbound `peerSeq`. -/
structure E2EESession where
  sharedSecret : List Nat
  derivedKey : List Nat
  seq : Int
  peerSeq : Int
deriving DecidableEq, Repr

/-- The failure modes of `decrypt` (the code throws `Error`s whose messages
distinguish the replay case from the GCM tag-verification case). -/
inductive DecryptError where
  | replayRejected
  | authFailed
deriving DecidableEq, Repr

/-- Source `encrypt(session, plaintext)` from the E2EE module. The random
12-byte IV (`crypto.randomBytes(IV_LENGTH)`) is passed in explicitly;
plaintext is its UTF-8 bytes. Returns the base64 payload, the emitted
`seq`, and the mutated session (`const seq = session.seq++`). -/
def encrypt (g : GCM) (session : E2EESession) (iv plaintext : List Nat) :
    (String × Int) × E2EESession :=
  let encrypted := g.enc session.derivedKey iv plaintext
  let combined := iv ++ encrypted.1 ++ encrypted.2
  let seq := session.seq
  ((b64encode combined, seq), { session with seq := session.seq + 1 })

/-- Source `decrypt(session, payload, seq)` from the E2EE module, returning the
result together with the mutated session. Mirrors the source order: the
replay check first, then `session.peerSeq = seq` (before any
decryption), then base64 decode, the IV/ciphertext/tag split by
`subarray`, and GCM verify+decrypt. -/
def decrypt (g : GCM) (session : E2EESession) (payload : String) (seq : Int) :
    Except DecryptError (List Nat) × E2EESession :=
  if seq ≤ session.peerSeq then
    (Except.error DecryptError.replayRejected, session)
  else
    let session1 := { session with peerSeq := seq }
    let combined := b64decode payload
    let iv := combined.take IV_LENGTH
    let authTag := combined.drop (combined.length - TAG_LENGTH)
    let ciphertext := (combined.take (combined.length - TAG_LENGTH)).drop IV_LENGTH
    match g.dec session1.derivedKey iv ciphertext authTag with
    | some m => (Except.ok m, session1)
    | none => (Except.error DecryptError.authFailed, session1)

-- ─── HKDF-SHA256 ─────────────────────────────────────────────────────

/-- The expand loop of the desktop `hkdfSha256`: `k` blocks remain, `i` is
the loop index, `prev` the previous block; each round appends
`hmac(prk, prev ‖ info ‖ [i+1])`. HMAC-SHA256 (a node `crypto` call in the
source) is a function parameter; its digests are 32 bytes, so writing the
`prev.copy(okm, i * 32)` accumulation as concatenation is exact. -/
def hkdfBlocks (hmac : List Nat → List Nat → List Nat) (prk info : List Nat) :
    Nat → Nat → List Nat → List Nat
  | 0, _, _ => []
  | k + 1, i, prev =>
      let next := hmac prk (prev ++ info ++ [i + 1])
      next ++ hkdfBlocks hmac prk info k (i + 1) next

/-- Source `hkdfSha256(ikm, salt, info, length)` from src/unnamed/part_004:
extract `prk = hmac(salt, ikm)`, then expand `n = ceil(length/32)` blocks
and keep the first `length` bytes. -/
def hkdfSha256 (hmac : List Nat → List Nat → List Nat)
    (ikm salt info : List Nat) (length : Nat) : List Nat :=
  let prk := hmac salt ikm
  let n := (length + 31) / 32
  (hkdfBlocks hmac prk info n 0 []).take length

/-- Modelled from the spec: block `T(i)` of RFC 5869 HKDF-expand, which is
what `@noble/hashes` `hkdf` (the mobile side's library, not part of the
repository) computes: `T(0) = empty`, `T(i+1) = hmac(prk, T(i) ‖ info ‖ [i+1])`. -/
def hkdfT (hmac : List Nat → List Nat → List Nat) (prk info : List Nat) :
    Nat → List Nat
  | 0 => []
  | i + 1 => hmac prk (hkdfT hmac prk info i ++ info ++ [i + 1])

/-- Modelled from the spec: concatenation `T(1) ‖ … ‖ T(n)` of RFC 5869. -/
def hkdfRfcOkm (hmac : List Nat → List Nat → List Nat) (prk info : List Nat) :
    Nat → List Nat
  | 0 => []
  | n + 1 => hkdfRfcOkm hmac prk info n ++ hkdfT hmac prk info (n + 1)

/-- Modelled from the spec: RFC 5869 HKDF-SHA256 as implemented by
`@noble/hashes` `hkdf(sha256, ikm, salt, info, length)`. -/
def hkdfRfc (hmac : List Nat → List Nat → List Nat)
    (ikm salt info : List Nat) (length : Nat) : List Nat :=
  let prk := hmac salt ikm
  (hkdfRfcOkm hmac prk info ((length + 31) / 32)).take length

-- ─── ECDH P-256 ──────────────────────────────────────────────────────

/-- Modelled from the spec: the P-256 ECDH primitive, another library
(node `crypto.createECDH('prime256v1')` / `@noble/curves` `p256`) the
repository only calls. `pubOf` maps a private scalar to the public key
bytes; `mulX`/`mulY` are the X/Y coordinate bytes of the ECDH product of
a private scalar and a peer public key. The facts carried are the ones
the libraries document: the X coordinate is 32 bytes, and the
Diffie-Hellman products of the two sides have equal X coordinates. -/
structure ECDHModel where
  pubOf : List Nat → List Nat
  mulX : List Nat → List Nat → List Nat
  mulY : List Nat → List Nat → List Nat
  mulX_length : ∀ d p, (mulX d p).length = 32
  dh_comm : ∀ dA dB, mulX dA (pubOf dB) = mulX dB (pubOf dA)

/-- Source `deriveSession(ecdh, peerPublicKeyHex, pairingCode)` from
src/unnamed/part_004. Node's `ecdh.computeSecret` returns exactly the
X coordinate of the shared point, which is fed as IKM to HKDF-SHA256
with salt = UTF-8 bytes of the pairing code and
info = 'claude-studio-e2ee'; counters start at 0 / -1. -/
def deriveSession (E : ECDHModel) (hmac : List Nat → List Nat → List Nat)
    (priv peerPublicKey : List Nat) (pairingCode : String) : E2EESession :=
  let sharedSecret := E.mulX priv peerPublicKey
  let salt := utf8ascii pairingCode
  let info := utf8ascii "claude-studio-e2ee"
  let derivedKey := hkdfSha256 hmac sharedSecret salt info 32
  { sharedSecret := sharedSecret, derivedKey := derivedKey, seq := 0, peerSeq := -1 }

/-- Source `E2EESession` on the mobile side (QRScannerScreen.tsx): no stored
shared secret, just the derived key and the two counters. -/
structure MobileE2EESession where
  derivedKey : List Nat
  seq : Int
  peerSeq : Int
deriving DecidableEq, Repr

/-- Source `deriveSession(privateKey, peerPublicKeyHex, pairingCode)` from
src/mobile/src/screens/QRScannerScreen.tsx. `p256.getSharedSecret`
returns the uncompressed point `0x04 ‖ X ‖ Y`; the code slices bytes
1..33 to keep the X coordinate and runs the @noble HKDF with the same
salt and info. -/
def deriveSessionMobile (E : ECDHModel) (hmac : List Nat → List Nat → List Nat)
    (privateKey peerPublicKey : List Nat) (pairingCode : String) : MobileE2EESession :=
  let sharedSecret := 4 :: (E.mulX privateKey peerPublicKey ++ E.mulY privateKey peerPublicKey)
  let sharedX := (sharedSecret.drop 1).take 32
  let salt := utf8ascii pairingCode
  let info := utf8ascii "claude-studio-e2ee"
  let derivedKey := hkdfRfc hmac sharedX salt info 32
  { derivedKey := derivedKey, seq := 0, peerSeq := -1 }

-- ─── Concrete instances for witnesses and counterexamples ────────────

/-- A concrete inhabitant of the `GCM` interface used to evaluate the
embedded code on explicit inputs. -/
def toyGCM : GCM where
  enc := fun _ _ m => (m.map (fun b => b % 256), List.replicate 16 0)
  dec := fun _ _ ct tag => if tag = List.replicate 16 0 then some ct else none
  tag_length := by intro k iv m; simp
  enc_bytes := by
    intro k iv m b hb
    simp only [List.mem_map] at hb
    obtain ⟨x, _, hx⟩ := hb
    omega
  tag_bytes := by
    intro k iv m b hb
    simp only [List.mem_replicate] at hb
    omega
  dec_enc := by
    intro k iv m hm
    have hmap : m.map (fun b => b % 256) = m := by
      induction m with
      | nil => rfl
      | cons x xs ih =>
        have hx : x < 256 := hm x (by simp)
        simp only [List.map_cons, Nat.mod_eq_of_lt hx, List.cons.injEq, true_and]
        exact ih (fun b hb => hm b (by simp [hb]))
    simp [hmap]

/-- A concrete inhabitant of the `ECDHModel` interface. -/
def toyECDH : ECDHModel where
  pubOf := id
  mulX := fun d p => List.replicate 31 0 ++ [d.sum * p.sum % 256]
  mulY := fun _ _ => []
  mulX_length := by intro d p; simp
  dh_comm := by intro a b; simp [Nat.mul_comm]

/-- A concrete 32-byte-digest function standing in for HMAC-SHA256. -/
def toyHmac : List Nat → List Nat → List Nat :=
  fun k msg => List.replicate 31 0 ++ [(k.sum + msg.sum) % 256]

/-- A session with the initial counters and an all-zero key, used as a
concrete input. -/
def cSession : E2EESession :=
  { sharedSecret := [], derivedKey := List.replicate 32 0, seq := 0, peerSeq := -1 }

/-- A payload whose GCM tag does not verify under `toyGCM`. -/
def badPayload : String :=
  b64encode (List.replicate 12 0 ++ [7] ++ List.replicate 16 1)

-- ══════════════════════════════════════════════════════════════════════
-- Relay server (src/server/src/relay.ts)
-- ══════════════════════════════════════════════════════════════════════

/-- JS truthiness test for an optional string message field: `!x` is true
when the field is missing (`undefined`/`null`) and when it is `""`. -/
def falsy : Option String → Bool
  | none => true
  | some s => s == ""

/-- Source `x || d` for an optional string field. -/
def orFalsy (o : Option String) (d : String) : String :=
  match o with
  | some s => if s == "" then d else s
  | none => d

/-- Source `ConnectedDevice`: `ws` is the connection id standing for the
WebSocket object. -/
structure ConnectedDevice where
  ws : Nat
  userId : String
  deviceId : String
  deviceType : String
  deviceName : String
  connectedAt : Nat
deriving DecidableEq, Repr

/-- Source `PairingEntry` of the pending-pairings store. -/
structure PairingEntry where
  pairingCode : String
  desktopId : String
  desktopPublicKey : String
  deviceName : String
  userId : String
  createdAt : Nat
deriving DecidableEq, Repr

/-- Source `PairedRelation` of the active pair list. -/
structure PairedRelation where
  desktopId : String
  mobileId : String
  userId : String
  pairedAt : Nat
deriving DecidableEq, Repr

-- A JS `Map` (unique keys, insertion-ordered) as an association list.

/-- Source `Map.prototype.get`. -/
def mapGet {α : Type} (m : List (String × α)) (k : String) : Option α :=
  (m.find? (fun p => p.1 == k)).map (fun p => p.2)

/-- Source `Map.prototype.set`: overwrite in place when the key exists, append
otherwise. -/
def mapSet {α : Type} (m : List (String × α)) (k : String) (v : α) :
    List (String × α) :=
  if m.any (fun p => p.1 == k) then
    m.map (fun p => if p.1 == k then (k, v) else p)
  else
    m ++ [(k, v)]

/-- Source `Map.prototype.delete`. -/
def mapDelete {α : Type} (m : List (String × α)) (k : String) :
    List (String × α) :=
  m.filter (fun p => p.1 != k)

/-- Source `findIndex` + `splice(idx, 1)`: remove the first match, keep the list
unchanged when there is none. -/
def eraseFirstSuchThat {α : Type} : List α → (α → Bool) → List α
  | [], _ => []
  | x :: xs, p => if p x then xs else x :: eraseFirstSuchThat xs p

/-- Server → client frames (the JSON objects handed to `sendTo`). -/
inductive Frame where
  | error (message : String)
  | pong
  | pairingAcceptedDesktopSide (mobilePublicKey mobileDeviceId mobileDeviceName : String)
  | pairingAcceptedMobileSide (desktopId desktopDeviceName desktopPublicKey : String)
  | pairingRevoked (deviceId : String)
  | relay (fromId : String) (payload : String) (seq : Option Int)
  | deviceEvent (eventType : String) (deviceId : String)
  | controlRequest (fromId : String) (deviceName : String)
  | controlAck (fromId : String) (accepted : Option Bool)
  | controlRevoked (fromId : String)
  | deviceList (desktops : List (String × String × Bool))
deriving DecidableEq, Repr

/-- Observable effects of a handler: a `sendTo(ws, frame)` or a
`ws.close(code, reason)`. -/
inductive Eff where
  | send (conn : Nat) (frame : Frame)
  | close (conn : Nat) (code : Nat) (reason : String)
deriving DecidableEq, Repr

/-- The three module-level registries of relay.ts. -/
structure ServerState where
  devices : List (String × ConnectedDevice)
  pendingPairings : List (String × PairingEntry)
  pairedRelations : List PairedRelation
deriving DecidableEq, Repr

/-- Source `PAIRING_TTL = 5 * 60 * 1000`. -/
def PAIRING_TTL : Nat := 5 * 60 * 1000

/-- Source `handleRegisterPairing(device, msg)`. -/
def handleRegisterPairing (st : ServerState) (device : ConnectedDevice)
    (pairingCode publicKey deviceName : Option String) (now : Nat) :
    ServerState × List Eff :=
  if device.deviceType ≠ "desktop" then
    (st, [Eff.send device.ws (Frame.error "Only desktop can register pairing")])
  else if falsy pairingCode || falsy publicKey then
    (st, [Eff.send device.ws (Frame.error "Missing pairingCode or publicKey")])
  else
    let code := pairingCode.getD ""
    let entry : PairingEntry :=
      { pairingCode := code
        desktopId := device.deviceId
        desktopPublicKey := publicKey.getD ""
        deviceName := orFalsy deviceName device.deviceName
        userId := device.userId
        createdAt := now }
    ({ st with pendingPairings := mapSet st.pendingPairings code entry }, [])

/-- Source `handleClaimPairing(device, msg)`; `now` is `Date.now()`. -/
def handleClaimPairing (st : ServerState) (device : ConnectedDevice)
    (pairingCode publicKey : Option String) (now : Nat) :
    ServerState × List Eff :=
  if device.deviceType ≠ "mobile" then
    (st, [Eff.send device.ws (Frame.error "Only mobile can claim pairing")])
  else if falsy pairingCode || falsy publicKey then
    (st, [Eff.send device.ws (Frame.error "Missing pairingCode or publicKey")])
  else
    let code := pairingCode.getD ""
    match mapGet st.pendingPairings code with
    | none =>
      (st, [Eff.send device.ws (Frame.error "Invalid or expired pairing code")])
    | some entry =>
      if entry.userId ≠ device.userId then
        (st, [Eff.send device.ws (Frame.error "Pairing code belongs to a different account")])
      else if now - entry.createdAt > PAIRING_TTL then
        ({ st with pendingPairings := mapDelete st.pendingPairings code },
         [Eff.send device.ws (Frame.error "Pairing code expired")])
      else
        let rels := eraseFirstSuchThat st.pairedRelations
          (fun r => r.desktopId == entry.desktopId && r.mobileId == device.deviceId)
        let rels := rels ++ [{ desktopId := entry.desktopId
                               mobileId := device.deviceId
                               userId := device.userId
                               pairedAt := now }]
        let pend := mapDelete st.pendingPairings code
        let desktopEffs :=
          match mapGet st.devices entry.desktopId with
          | some desktop =>
            [Eff.send desktop.ws (Frame.pairingAcceptedDesktopSide
              (publicKey.getD "") device.deviceId device.deviceName)]
          | none => []
        ({ st with pendingPairings := pend, pairedRelations := rels },
         desktopEffs ++
           [Eff.send device.ws (Frame.pairingAcceptedMobileSide
             entry.desktopId entry.deviceName entry.desktopPublicKey)])

/-- The pairing predicate of `handleRelay`: some relation joins the
sender's deviceId and `to` in either role (the relation's `userId` is
not consulted). -/
def coversPair (sender target : String) (r : PairedRelation) : Bool :=
  (r.desktopId == sender && r.mobileId == target) ||
  (r.mobileId == sender && r.desktopId == target)

/-- Source `handleRelay(device, msg)`: never mutates state. -/
def handleRelay (st : ServerState) (device : ConnectedDevice)
    (toDev payload : Option String) (seq : Option Int) : List Eff :=
  if falsy toDev || falsy payload then
    [Eff.send device.ws (Frame.error "Missing relay target or payload")]
  else
    let toId := toDev.getD ""
    let isPaired := st.pairedRelations.any (coversPair device.deviceId toId)
    if !isPaired then
      [Eff.send device.ws (Frame.error "Not paired with target device")]
    else
      match mapGet st.devices toId with
      | none => [Eff.send device.ws (Frame.error "Target device is offline")]
      | some target =>
        [Eff.send target.ws (Frame.relay device.deviceId (payload.getD "") seq)]

/-- Source `handleControlRequest(device, msg)`: role check, then the bare
`return` on a missing `targetDesktopId`, then the mobile→desktop pairing
check. -/
def handleControlRequest (st : ServerState) (device : ConnectedDevice)
    (targetDesktopId : Option String) : List Eff :=
  if device.deviceType ≠ "mobile" then
    [Eff.send device.ws (Frame.error "Only mobile can request control")]
  else if falsy targetDesktopId then []
  else
    let tid := targetDesktopId.getD ""
    let isPaired := st.pairedRelations.any
      (fun r => r.desktopId == tid && r.mobileId == device.deviceId)
    if !isPaired then
      [Eff.send device.ws (Frame.error "Not paired with target desktop")]
    else
      match mapGet st.devices tid with
      | none => [Eff.send device.ws (Frame.error "Desktop is offline")]
      | some desktop =>
        [Eff.send desktop.ws (Frame.controlRequest device.deviceId device.deviceName)]

/-- Source `handleControlAck(device, msg)`: forwarded to whatever device `to`
names, with no role, pairing or user check. -/
def handleControlAck (st : ServerState) (device : ConnectedDevice)
    (toDev : Option String) (accepted : Option Bool) : List Eff :=
  if falsy toDev then []
  else
    match mapGet st.devices (toDev.getD "") with
    | some target => [Eff.send target.ws (Frame.controlAck device.deviceId accepted)]
    | none => []

/-- Source `handleControlRevoked(device, msg)`: same shape as `handleControlAck`. -/
def handleControlRevoked (st : ServerState) (device : ConnectedDevice)
    (toDev : Option String) : List Eff :=
  if falsy toDev then []
  else
    match mapGet st.devices (toDev.getD "") with
    | some target => [Eff.send target.ws (Frame.controlRevoked device.deviceId)]
    | none => []

/-- Source `notifyPairedDevices(deviceId, userId, eventType)`. -/
def notifyPairedDevices (st : ServerState) (deviceId userId eventType : String) :
    List Eff :=
  st.pairedRelations.filterMap (fun rel =>
    if rel.userId != userId then none
    else
      let targetId : Option String :=
        if rel.desktopId == deviceId then some rel.mobileId
        else if rel.mobileId == deviceId then some rel.desktopId
        else none
      match targetId with
      | none => none
      | some tid =>
        match mapGet st.devices tid with
        | some target => some (Eff.send target.ws (Frame.deviceEvent eventType deviceId))
        | none => none)

/-- The fold body of `sendDesktopList`: accumulate the desktop summaries
and the `seen` set. -/
def desktopListStep (st : ServerState) (userId : String)
    (acc : List (String × String × Bool) × List String) (rel : PairedRelation) :
    List (String × String × Bool) × List String :=
  if rel.userId != userId || acc.2.contains rel.desktopId then acc
  else
    let d := mapGet st.devices rel.desktopId
    (acc.1 ++ [(rel.desktopId,
                (match d with | some dev => dev.deviceName | none => "Unknown"),
                d.isSome)],
     acc.2 ++ [rel.desktopId])

/-- Source `sendDesktopList(ws, userId)`. -/
def sendDesktopList (st : ServerState) (ws : Nat) (userId : String) : Eff :=
  Eff.send ws (Frame.deviceList (st.pairedRelations.foldl (desktopListStep st userId) ([], [])).1)

/-- The body of `wss.on('connection', …)`: close any existing connection
for the deviceId, overwrite the registry record, notify paired peers
with `device-online`, and send a mobile its desktop list. -/
def onConnection (st : ServerState) (ws : Nat)
    (userId deviceId deviceType deviceName : String) (now : Nat) :
    ServerState × List Eff :=
  let closeEffs :=
    match mapGet st.devices deviceId with
    | some existing => [Eff.close existing.ws 1000 "Replaced by new connection"]
    | none => []
  let device : ConnectedDevice :=
    { ws := ws, userId := userId, deviceId := deviceId,
      deviceType := deviceType, deviceName := deviceName, connectedAt := now }
  let st1 := { st with devices := mapSet st.devices deviceId device }
  let onlineEffs := notifyPairedDevices st1 deviceId userId "device-online"
  let listEffs := if deviceType == "mobile" then [sendDesktopList st1 ws userId] else []
  (st1, closeEffs ++ onlineEffs ++ listEffs)

/-- The body of `ws.on('close', …)` registered at connection time: it
deletes the registry record for the captured `deviceId` unconditionally
and then notifies paired peers with `device-offline`. -/
def onClose (st : ServerState) (deviceId userId : String) :
    ServerState × List Eff :=
  let st1 := { st with devices := mapDelete st.devices deviceId }
  (st1, notifyPairedDevices st1 deviceId userId "device-offline")

-- ══════════════════════════════════════════════════════════════════════
-- Remote-control state machine (src/src/main/remote-control.ts)
-- ══════════════════════════════════════════════════════════════════════

/-- The mutable fields of `RemoteControl` that `tryUnlock` touches:
`state` (`mode` one of "local" | "remote" | "unlocking", plus the
controller reference) and the configured `lockPassword`. -/
structure RemoteControlState where
  mode : String
  controllingDeviceId : Option String
  controllingDeviceName : Option String
  lockPassword : String
deriving DecidableEq, Repr

/-- Source `RemoteControl.tryUnlock(password)`: returns the boolean result, the
new state, and the deviceIds sent `control-revoked` via
`relayClient.sendControlRevoked`. -/
def tryUnlock (st : RemoteControlState) (password : String) :
    Bool × RemoteControlState × List String :=
  if st.mode ≠ "remote" ∧ st.mode ≠ "unlocking" then
    (true, st, [])
  else
    let st1 := if st.mode == "remote" then { st with mode := "unlocking" } else st
    if password == st.lockPassword then
      let effs :=
        match st1.controllingDeviceId with
        | some d => [d]
        | none => []
      (true,
       { st1 with mode := "local", controllingDeviceId := none,
                  controllingDeviceName := none },
       effs)
    else
      (false, st1, [])

-- ══════════════════════════════════════════════════════════════════════
-- Concrete example data for witnesses and counterexamples
-- ══════════════════════════════════════════════════════════════════════

/-- A mobile device of user u1 on connection 5. -/
def exMobile : ConnectedDevice :=
  { ws := 5, userId := "u1", deviceId := "M", deviceType := "mobile",
    deviceName := "Phone", connectedAt := 0 }

/-- A desktop with deviceId D currently authenticated as user u2. -/
def exDesktopU2 : ConnectedDevice :=
  { ws := 1, userId := "u2", deviceId := "D", deviceType := "desktop",
    deviceName := "Desk", connectedAt := 0 }

/-- Both attached; the only pair record for (D, M) was claimed under u1. -/
def exState : ServerState :=
  { devices := [("D", exDesktopU2), ("M", exMobile)],
    pendingPairings := [],
    pairedRelations := [{ desktopId := "D", mobileId := "M", userId := "u1", pairedAt := 0 }] }

/-- Initial state for the displacement scenario: mobile M (user u) is
attached on connection 5 and paired with desktop deviceId D. -/
def exSt3 : ServerState :=
  { devices := [("M", { ws := 5, userId := "u", deviceId := "M",
                        deviceType := "mobile", deviceName := "Phone",
                        connectedAt := 0 })],
    pendingPairings := [],
    pairedRelations := [{ desktopId := "D", mobileId := "M", userId := "u", pairedAt := 0 }] }

/-- Displacement trace, step 1: desktop D connects on connection 1. -/
def race1 : ServerState × List Eff := onConnection exSt3 1 "u" "D" "desktop" "Desk" 10

/-- Displacement trace, step 2: desktop D connects again on connection 2. -/
def race2 : ServerState × List Eff := onConnection race1.1 2 "u" "D" "desktop" "Desk" 20

/-- Displacement trace, step 3: the first connection's close event fires. -/
def race3 : ServerState × List Eff := onClose race2.1 "D" "u"

/-- A pending pairing offer registered by desktop D under user u1. -/
def exEntry : PairingEntry :=
  { pairingCode := "C", desktopId := "D", desktopPublicKey := "PKD",
    deviceName := "Desk", userId := "u1", createdAt := 0 }

/-- The desktop that registered `exEntry`, attached on connection 2. -/
def exDesktopU1 : ConnectedDevice :=
  { ws := 2, userId := "u1", deviceId := "D", deviceType := "desktop",
    deviceName := "Desk", connectedAt := 0 }

/-- A mobile of the other user u2, attached on connection 7. -/
def exMobileU2 : ConnectedDevice :=
  { ws := 7, userId := "u2", deviceId := "M2", deviceType := "mobile",
    deviceName := "P2", connectedAt := 0 }

/-- State with the offer `exEntry` pending and its desktop attached. -/
def exStPending : ServerState :=
  { devices := [("D", exDesktopU1)],
    pendingPairings := [("C", exEntry)],
    pairedRelations := [] }

/-- A remote-control state: locked by mobile M, default secret. -/
def exRC : RemoteControlState :=
  { mode := "remote", controllingDeviceId := some "M",
    controllingDeviceName := some "Phone", lockPassword := "666666" }

-- A trace reaching a state where the pair record's userId differs from
-- the sender's current userId: desktop D and mobile M connect as u1,
-- register and claim a code, then D reconnects with a token of u2
-- (deviceId is a client-supplied query parameter).

/-- Trace step: D connects as u1 on connection 1. -/
def cx1 : ServerState :=
  (onConnection { devices := [], pendingPairings := [], pairedRelations := [] }
    1 "u1" "D" "desktop" "Desk" 0).1

/-- Trace step: M connects as u1 on connection 5. -/
def cx2 : ServerState := (onConnection cx1 5 "u1" "M" "mobile" "Phone" 0).1

/-- D's device record created at step `cx1`. -/
def cxDesktop1 : ConnectedDevice :=
  { ws := 1, userId := "u1", deviceId := "D", deviceType := "desktop",
    deviceName := "Desk", connectedAt := 0 }

/-- Trace step: D registers pairing code C. -/
def cx3 : ServerState :=
  (handleRegisterPairing cx2 cxDesktop1 (some "C") (some "PKD") none 0).1

/-- Trace step: M claims the code; the pair record (D, M) is created
under u1. -/
def cx4 : ServerState := (handleClaimPairing cx3 exMobile (some "C") (some "PKM") 1).1

/-- Trace step: D reconnects on connection 9 authenticated as u2. -/
def cx5 : ServerState := (onConnection cx4 9 "u2" "D" "desktop" "Desk" 2).1

/-- D's device record created at step `cx5` (the one the message handler
closes over afterwards). -/
def cxDesktop2 : ConnectedDevice :=
  { ws := 9, userId := "u2", deviceId := "D", deviceType := "desktop",
    deviceName := "Desk", connectedAt := 2 }

-- Round-trip facts about the base64 pair.

theorem decodeChar_encodeChar : ∀ n, n < 64 → decodeChar (encodeChar n) = n := by
  decide

theorem encodeChar_ne_eq : ∀ n, n < 64 → (encodeChar n == '=') = false := by
  decide

/-- Base64 decode inverts encode on byte lists. -/
theorem b64decodeList_encodeList (bs : List Nat) (h : ∀ b ∈ bs, b < 256) :
    b64decodeList (b64encodeList bs) = bs := by
  match bs with
  | [] => rfl
  | [a] =>
    have ha : a < 256 := h a (by simp)
    have h1 := decodeChar_encodeChar (a / 4) (by omega)
    have h2 := decodeChar_encodeChar (a % 4 * 16) (by omega)
    simp [b64encodeList, b64decodeList, h1, h2]
    omega
  | [a, b] =>
    have ha : a < 256 := h a (by simp)
    have hb : b < 256 := h b (by simp)
    have h1 := decodeChar_encodeChar (a / 4) (by omega)
    have h2 := decodeChar_encodeChar (a % 4 * 16 + b / 16) (by omega)
    have h3 := decodeChar_encodeChar (b % 16 * 4) (by omega)
    have hne := encodeChar_ne_eq (b % 16 * 4) (by omega)
    simp [b64encodeList, b64decodeList, h1, h2, h3, hne]
    omega
  | a :: b :: c :: rest =>
    have ha : a < 256 := h a (by simp)
    have hb : b < 256 := h b (by simp)
    have hc : c < 256 := h c (by simp)
    have ih := b64decodeList_encodeList rest
      (fun x hx => h x (by simp [hx]))
    have h1 := decodeChar_encodeChar (a / 4) (by omega)
    have h2 := decodeChar_encodeChar (a % 4 * 16 + b / 16) (by omega)
    have h3 := decodeChar_encodeChar (b % 16 * 4 + c / 64) (by omega)
    have h4 := decodeChar_encodeChar (c % 64) (by omega)
    have hne3 := encodeChar_ne_eq (b % 16 * 4 + c / 64) (by omega)
    have hne4 := encodeChar_ne_eq (c % 64) (by omega)
    simp [b64encodeList, b64decodeList, h1, h2, h3, h4, hne3, hne4, ih]
    omega

/-- String-level round trip. -/
theorem b64decode_encode (bs : List Nat) (h : ∀ b ∈ bs, b < 256) :
    b64decode (b64encode bs) = bs := by
  unfold b64decode b64encode
  exact b64decodeList_encodeList bs h

-- ══════════════════════════════════════════════════════════════════════
-- Decrypt splitting helper (shared)
-- ══════════════════════════════════════════════════════════════════════

/-- On a payload assembled as base64(IV ‖ ciphertext ‖ tag) with a 12-byte
IV and 16-byte tag, `decrypt` past the replay check recovers exactly the
three pieces and reduces to the GCM verification, updating `peerSeq` in
both outcomes. -/
theorem decrypt_of_encoded (g : GCM) (s : E2EESession) (iv ct tag : List Nat)
    (seq : Int) (hiv : iv.length = 12) (htag : tag.length = 16)
    (hivb : ∀ b ∈ iv, b < 256) (hctb : ∀ b ∈ ct, b < 256)
    (htagb : ∀ b ∈ tag, b < 256) (hlt : s.peerSeq < seq) :
    decrypt g s (b64encode (iv ++ ct ++ tag)) seq =
      match g.dec s.derivedKey iv ct tag with
      | some m => (Except.ok m, { s with peerSeq := seq })
      | none => (Except.error DecryptError.authFailed, { s with peerSeq := seq }) := by
  have hbytes : ∀ b ∈ iv ++ ct ++ tag, b < 256 := by
    intro b hb
    simp only [List.mem_append] at hb
    rcases hb with (hb | hb) | hb
    exacts [hivb b hb, hctb b hb, htagb b hb]
  have hdecode : b64decode (b64encode (iv ++ ct ++ tag)) = iv ++ ct ++ tag :=
    b64decode_encode _ hbytes
  have hlen16 : (iv ++ ct ++ tag).length - 16 = (iv ++ ct).length := by
    simp [hiv, htag]
    omega
  have e1 : (iv ++ ct ++ tag).take 12 = iv := by
    rw [List.append_assoc]
    exact List.take_left' hiv
  have e2 : (iv ++ ct ++ tag).drop ((iv ++ ct ++ tag).length - 16) = tag := by
    rw [hlen16]
    exact List.drop_left (iv ++ ct) tag
  have e3 : ((iv ++ ct ++ tag).take ((iv ++ ct ++ tag).length - 16)).drop 12 = ct := by
    rw [hlen16, List.take_left, List.drop_left' hiv]
  simp only [decrypt, IV_LENGTH, TAG_LENGTH, hdecode, e1, e2, e3]
  rw [if_neg (by omega)]

-- ══════════════════════════════════════════════════════════════════════
-- C1
-- ══════════════════════════════════════════════════════════════════════

/-- C1 counterexample: at a concrete session with `lastInboundSeq = -1`
and a payload whose tag fails verification, `decrypt` at `seq = 0` fails
with AuthFailed yet the session's `lastInboundSeq` HAS been changed to 0
(the code assigns `session.peerSeq = seq` before decrypting), refuting
"sets lastInboundSeq = seq only on success … on tag-verification failure
lastInboundSeq is unchanged". -/
theorem decrypt_authFailed_mutates_peerSeq :
    (decrypt toyGCM cSession badPayload 0).1 = Except.error DecryptError.authFailed ∧
    (decrypt toyGCM cSession badPayload 0).2.peerSeq = 0 ∧
    cSession.peerSeq = -1 := by
  refine ⟨?_, ?_, rfl⟩ <;> rfl

/-- C1 (amended): `decrypt` fails with ReplayRejected iff
`seq ≤ lastInboundSeq`; otherwise it base64-decodes, splits into
IV(12)/body/tag(16) and GCM-verifies, setting `lastInboundSeq = seq` as
soon as the replay check passes — on success it returns the plaintext,
and on tag-verification failure it fails with AuthFailed with
`lastInboundSeq` ALSO updated to `seq`. -/
theorem decrypt_spec (g : GCM) (s : E2EESession) (iv ct tag : List Nat)
    (seq : Int) (hiv : iv.length = 12) (htag : tag.length = 16)
    (hivb : ∀ b ∈ iv, b < 256) (hctb : ∀ b ∈ ct, b < 256)
    (htagb : ∀ b ∈ tag, b < 256) :
    (seq ≤ s.peerSeq →
      decrypt g s (b64encode (iv ++ ct ++ tag)) seq =
        (Except.error DecryptError.replayRejected, s)) ∧
    (s.peerSeq < seq →
      decrypt g s (b64encode (iv ++ ct ++ tag)) seq =
        match g.dec s.derivedKey iv ct tag with
        | some m => (Except.ok m, { s with peerSeq := seq })
        | none => (Except.error DecryptError.authFailed, { s with peerSeq := seq })) := by
  constructor
  · intro hle
    simp only [decrypt]
    rw [if_pos hle]
  · intro hlt
    exact decrypt_of_encoded g s iv ct tag seq hiv htag hivb hctb htagb hlt

/-- Witness for `decrypt_spec` at concrete inputs. -/
theorem decrypt_spec_witness :
    (List.replicate 12 0).length = 12 ∧
    ((5 : Int) ≤ cSession.peerSeq →
      decrypt toyGCM cSession
        (b64encode (List.replicate 12 0 ++ [1, 2, 3] ++ List.replicate 16 0)) 5 =
        (Except.error DecryptError.replayRejected, cSession)) ∧
    (cSession.peerSeq < 5 →
      decrypt toyGCM cSession
        (b64encode (List.replicate 12 0 ++ [1, 2, 3] ++ List.replicate 16 0)) 5 =
        match toyGCM.dec cSession.derivedKey (List.replicate 12 0) [1, 2, 3]
            (List.replicate 16 0) with
        | some m => (Except.ok m, { cSession with peerSeq := 5 })
        | none => (Except.error DecryptError.authFailed, { cSession with peerSeq := 5 })) :=
  ⟨by decide,
   decrypt_spec toyGCM cSession (List.replicate 12 0) [1, 2, 3]
     (List.replicate 16 0) 5 (by decide) (by decide) (by decide) (by decide) (by decide)⟩

-- ══════════════════════════════════════════════════════════════════════
-- C4
-- ══════════════════════════════════════════════════════════════════════

/-- C4: with equal derived keys, a plaintext encrypted on one side
round-trips through the other side's decrypt when the emitted sequence
number exceeds the receiver's `lastInboundSeq`; `encrypt` emits
`seq = outboundSeq` and then increments it, and `deriveSession` starts
the counters at 0 / -1. -/
theorem encrypt_decrypt_roundtrip (g : GCM) (E : ECDHModel)
    (hmac : List Nat → List Nat → List Nat)
    (s t : E2EESession) (iv m priv pub : List Nat) (code : String)
    (hkey : t.derivedKey = s.derivedKey) (hiv : iv.length = 12)
    (hivb : ∀ b ∈ iv, b < 256) (hm : ∀ b ∈ m, b < 256)
    (hseq : t.peerSeq < s.seq) :
    (encrypt g s iv m).1.2 = s.seq ∧
    (encrypt g s iv m).2.seq = s.seq + 1 ∧
    decrypt g t (encrypt g s iv m).1.1 s.seq =
      (Except.ok m, { t with peerSeq := s.seq }) ∧
    (deriveSession E hmac priv pub code).seq = 0 ∧
    (deriveSession E hmac priv pub code).peerSeq = -1 := by
  refine ⟨rfl, rfl, ?_, rfl, rfl⟩
  have hsplit := decrypt_of_encoded g t iv (g.enc s.derivedKey iv m).1
    (g.enc s.derivedKey iv m).2 s.seq hiv (g.tag_length s.derivedKey iv m)
    hivb (g.enc_bytes s.derivedKey iv m) (g.tag_bytes s.derivedKey iv m) hseq
  have hpayload : (encrypt g s iv m).1.1 =
      b64encode (iv ++ (g.enc s.derivedKey iv m).1 ++ (g.enc s.derivedKey iv m).2) := rfl
  rw [hpayload, hsplit, hkey, g.dec_enc s.derivedKey iv m hm]

/-- Witness for `encrypt_decrypt_roundtrip` at concrete inputs. -/
theorem encrypt_decrypt_roundtrip_witness :
    cSession.peerSeq < cSession.seq ∧
    (encrypt toyGCM cSession (List.replicate 12 0) [104, 105]).1.2 = cSession.seq ∧
    (encrypt toyGCM cSession (List.replicate 12 0) [104, 105]).2.seq = cSession.seq + 1 ∧
    decrypt toyGCM cSession
      (encrypt toyGCM cSession (List.replicate 12 0) [104, 105]).1.1 cSession.seq =
      (Except.ok [104, 105], { cSession with peerSeq := cSession.seq }) ∧
    (deriveSession toyECDH toyHmac [3] [5] "code").seq = 0 ∧
    (deriveSession toyECDH toyHmac [3] [5] "code").peerSeq = -1 :=
  ⟨by decide,
   encrypt_decrypt_roundtrip toyGCM toyECDH toyHmac cSession cSession
     (List.replicate 12 0) [104, 105] [3] [5] "code" rfl (by decide) (by decide)
     (by decide) (by decide)⟩

-- ══════════════════════════════════════════════════════════════════════
-- C5
-- ══════════════════════════════════════════════════════════════════════

/-- For a 32-byte output the desktop's hand-rolled HKDF loop and RFC 5869
HKDF-expand coincide. -/
theorem hkdf32_eq (hmac : List Nat → List Nat → List Nat)
    (ikm salt info : List Nat) :
    hkdfSha256 hmac ikm salt info 32 = hkdfRfc hmac ikm salt info 32 := by
  simp [hkdfSha256, hkdfRfc, hkdfBlocks, hkdfRfcOkm, hkdfT]

/-- C5: for any two private scalars exchanging public keys under the same
pairing code, the desktop `deriveSession` (Node ECDH X-coordinate into
the source's `hkdfSha256`) and the mobile `deriveSession` (@noble shared
secret `0x04 ‖ X ‖ Y` sliced to X, RFC 5869 HKDF) produce byte-identical
32-byte derived keys. -/
theorem deriveSession_interop (E : ECDHModel)
    (hmac : List Nat → List Nat → List Nat)
    (hlen : ∀ k msg, (hmac k msg).length = 32)
    (dD dM : List Nat) (code : String) :
    (deriveSession E hmac dD (E.pubOf dM) code).derivedKey =
      (deriveSessionMobile E hmac dM (E.pubOf dD) code).derivedKey ∧
    (deriveSession E hmac dD (E.pubOf dM) code).derivedKey.length = 32 := by
  have hslice :
      (((4 :: (E.mulX dM (E.pubOf dD) ++ E.mulY dM (E.pubOf dD))).drop 1).take 32)
        = E.mulX dM (E.pubOf dD) := by
    simp only [List.drop_succ_cons, List.drop_zero]
    exact List.take_left' (E.mulX_length dM (E.pubOf dD))
  constructor
  · simp only [deriveSession, deriveSessionMobile, hslice, E.dh_comm dD dM]
    exact hkdf32_eq hmac (E.mulX dM (E.pubOf dD)) (utf8ascii code)
      (utf8ascii "claude-studio-e2ee")
  · simp [deriveSession, hkdfSha256, hkdfBlocks, hlen]

/-- Witness for `deriveSession_interop` at concrete inputs. -/
theorem deriveSession_interop_witness :
    (toyHmac [1] [2]).length = 32 ∧
    ((deriveSession toyECDH toyHmac [9] (toyECDH.pubOf [11]) "pc").derivedKey =
      (deriveSessionMobile toyECDH toyHmac [11] (toyECDH.pubOf [9]) "pc").derivedKey ∧
    (deriveSession toyECDH toyHmac [9] (toyECDH.pubOf [11]) "pc").derivedKey.length = 32) :=
  ⟨by decide,
   deriveSession_interop toyECDH toyHmac
     (fun k msg => by simp [toyHmac]) [9] [11] "pc"⟩

-- ══════════════════════════════════════════════════════════════════════
-- Map helper (shared)
-- ══════════════════════════════════════════════════════════════════════

/-- Deleting a key makes a subsequent lookup of that key miss. -/
theorem mapGet_mapDelete {α : Type} (m : List (String × α)) (k : String) :
    mapGet (mapDelete m k) k = none := by
  induction m with
  | nil => rfl
  | cons x xs ih =>
    by_cases h : x.1 = k
    · simp only [mapDelete, List.filter_cons, h, bne_self_eq_false] at ih ⊢
      exact ih
    · simp [mapDelete, mapGet, List.filter_cons, List.find?_cons, h]

-- ══════════════════════════════════════════════════════════════════════
-- C2
-- ══════════════════════════════════════════════════════════════════════

/-- C2 counterexample: in the state `cx5` reached by the handler trace —
D and M pair under u1, then D reconnects authenticated as u2 —
`handleRelay` still forwards D's frame to M, although no pair record
covering (D, M) has the sender's userId at the moment of forwarding. -/
theorem relay_forward_userId_counterexample :
    handleRelay cx5 cxDesktop2 (some "M") (some "p") (some 0) =
      [Eff.send 5 (Frame.relay "D" "p" (some 0))] ∧
    cx5.pairedRelations.any
      (fun r => coversPair cxDesktop2.deviceId "M" r &&
                r.userId == cxDesktop2.userId) = false := by
  exact ⟨rfl, rfl⟩

/-- C2 (amended): the server forwards a relay frame from A to B exactly
when some pair record covers (A, B) in either role — the record's userId
(fixed at claim time) is NOT compared with A's current userId — and the
target is attached; when no covering record exists it sends an error
frame to A and forwards nothing. -/
theorem handleRelay_pair_guard (st : ServerState) (device target : ConnectedDevice)
    (toDev payload : Option String) (seq : Option Int)
    (hto : falsy toDev = false) (hpay : falsy payload = false) :
    (st.pairedRelations.any (coversPair device.deviceId (toDev.getD "")) = false →
      handleRelay st device toDev payload seq =
        [Eff.send device.ws (Frame.error "Not paired with target device")]) ∧
    (st.pairedRelations.any (coversPair device.deviceId (toDev.getD "")) = true →
      mapGet st.devices (toDev.getD "") = some target →
      handleRelay st device toDev payload seq =
        [Eff.send target.ws (Frame.relay device.deviceId (payload.getD "") seq)]) := by
  constructor
  · intro hcov
    simp [handleRelay, hto, hpay, hcov]
  · intro hcov hget
    simp [handleRelay, hto, hpay, hcov, hget]

/-- Witness for `handleRelay_pair_guard` at concrete inputs. -/
theorem handleRelay_pair_guard_witness :
    falsy (some "D") = false ∧
    ((exState.pairedRelations.any (coversPair exMobile.deviceId "D") = false →
      handleRelay exState exMobile (some "D") (some "x") none =
        [Eff.send exMobile.ws (Frame.error "Not paired with target device")]) ∧
    (exState.pairedRelations.any (coversPair exMobile.deviceId "D") = true →
      mapGet exState.devices "D" = some exDesktopU2 →
      handleRelay exState exMobile (some "D") (some "x") none =
        [Eff.send exDesktopU2.ws (Frame.relay exMobile.deviceId "x" none)])) :=
  ⟨rfl, handleRelay_pair_guard exState exMobile exDesktopU2 (some "D") (some "x")
    none rfl rfl⟩

-- ══════════════════════════════════════════════════════════════════════
-- C3
-- ══════════════════════════════════════════════════════════════════════

/-- C3, evaluated on the displacement trace: the second admission does
close the prior connection with the replacement reason and the registry
then targets connection 2; but when the first connection's close event
fires, the close handler removes the registry record unconditionally —
the registry no longer maps D at all — and `device-offline` for D IS
sent to its paired peer, contradicting the claimed detach guard. -/
theorem replaced_close_race :
    Eff.close 1 1000 "Replaced by new connection" ∈ race2.2 ∧
    mapGet race2.1.devices "D" =
      some { ws := 2, userId := "u", deviceId := "D", deviceType := "desktop",
             deviceName := "Desk", connectedAt := 20 } ∧
    mapGet race3.1.devices "D" = none ∧
    Eff.send 5 (Frame.deviceEvent "device-offline" "D") ∈ race3.2 := by
  refine ⟨?_, rfl, rfl, ?_⟩ <;> decide

-- ══════════════════════════════════════════════════════════════════════
-- C6
-- ══════════════════════════════════════════════════════════════════════

/-- C6: claiming a code registered under a different userId returns an
error and leaves the store untouched — the state (offers and pair
relations) is unchanged and the single emitted frame goes to the claimer
— and a later claim of the same code by a mobile of the registering user
(within TTL) still succeeds, emitting pairing-accepted to it. -/
theorem claim_wrong_user_rejected (st : ServerState)
    (device device2 : ConnectedDevice) (code publicKey publicKey2 : Option String)
    (now now2 : Nat) (entry : PairingEntry)
    (hmob : device.deviceType = "mobile") (hc : falsy code = false)
    (hpk : falsy publicKey = false)
    (hentry : mapGet st.pendingPairings (code.getD "") = some entry)
    (huser : entry.userId ≠ device.userId)
    (hmob2 : device2.deviceType = "mobile") (hpk2 : falsy publicKey2 = false)
    (huser2 : entry.userId = device2.userId)
    (httl : ¬ now2 - entry.createdAt > PAIRING_TTL) :
    handleClaimPairing st device code publicKey now =
      (st, [Eff.send device.ws
        (Frame.error "Pairing code belongs to a different account")]) ∧
    Eff.send device2.ws (Frame.pairingAcceptedMobileSide entry.desktopId
        entry.deviceName entry.desktopPublicKey) ∈
      (handleClaimPairing st device2 code publicKey2 now2).2 := by
  constructor
  · simp [handleClaimPairing, hmob, hc, hpk, hentry, huser]
  · simp [handleClaimPairing, hmob2, hc, hpk2, hentry, huser2, httl]

/-- Witness for `claim_wrong_user_rejected` at concrete inputs. -/
theorem claim_wrong_user_rejected_witness :
    mapGet exStPending.pendingPairings "C" = some exEntry ∧
    (handleClaimPairing exStPending exMobileU2 (some "C") (some "PKM") 1 =
      (exStPending, [Eff.send exMobileU2.ws
        (Frame.error "Pairing code belongs to a different account")]) ∧
    Eff.send exMobile.ws (Frame.pairingAcceptedMobileSide exEntry.desktopId
        exEntry.deviceName exEntry.desktopPublicKey) ∈
      (handleClaimPairing exStPending exMobile (some "C") (some "PKM2") 2).2) :=
  ⟨rfl, claim_wrong_user_rejected exStPending exMobileU2 exMobile (some "C")
    (some "PKM") (some "PKM2") 1 2 exEntry rfl rfl rfl rfl (by decide) rfl rfl rfl
    (by decide)⟩

-- ══════════════════════════════════════════════════════════════════════
-- C7
-- ══════════════════════════════════════════════════════════════════════

/-- C7: a successful claim removes the offer from the pending store (so
the observable handler effects happen with the code already consumed),
the claimer is notified with pairing-accepted, and a second claim of the
same code gets a single "Invalid or expired pairing code" error frame and
no pairing-accepted. -/
theorem claim_consumes_code_once (st : ServerState)
    (device device2 : ConnectedDevice) (code publicKey publicKey2 : Option String)
    (now now2 : Nat) (entry : PairingEntry)
    (hmob : device.deviceType = "mobile") (hc : falsy code = false)
    (hpk : falsy publicKey = false)
    (hentry : mapGet st.pendingPairings (code.getD "") = some entry)
    (huser : entry.userId = device.userId)
    (httl : ¬ now - entry.createdAt > PAIRING_TTL)
    (hmob2 : device2.deviceType = "mobile") (hpk2 : falsy publicKey2 = false) :
    mapGet (handleClaimPairing st device code publicKey now).1.pendingPairings
      (code.getD "") = none ∧
    Eff.send device.ws (Frame.pairingAcceptedMobileSide entry.desktopId
        entry.deviceName entry.desktopPublicKey) ∈
      (handleClaimPairing st device code publicKey now).2 ∧
    handleClaimPairing (handleClaimPairing st device code publicKey now).1
        device2 code publicKey2 now2 =
      ((handleClaimPairing st device code publicKey now).1,
       [Eff.send device2.ws (Frame.error "Invalid or expired pairing code")]) := by
  have hres : (handleClaimPairing st device code publicKey now).1.pendingPairings =
      mapDelete st.pendingPairings (code.getD "") := by
    simp [handleClaimPairing, hmob, hc, hpk, hentry, huser, httl]
  have hdel := mapGet_mapDelete st.pendingPairings (code.getD "")
  refine ⟨by rw [hres]; exact hdel, ?_, ?_⟩
  · simp [handleClaimPairing, hmob, hc, hpk, hentry, huser, httl]
  · have h2 : mapGet (handleClaimPairing st device code publicKey now).1.pendingPairings
        (code.getD "") = none := by rw [hres]; exact hdel
    generalize (handleClaimPairing st device code publicKey now).1 = st2 at h2 ⊢
    simp [handleClaimPairing, hmob2, hc, hpk2, h2]

/-- Witness for `claim_consumes_code_once` at concrete inputs. -/
theorem claim_consumes_code_once_witness :
    mapGet exStPending.pendingPairings "C" = some exEntry ∧
    (mapGet (handleClaimPairing exStPending exMobile (some "C") (some "PKM") 1).1.pendingPairings
      "C" = none ∧
    Eff.send exMobile.ws (Frame.pairingAcceptedMobileSide exEntry.desktopId
        exEntry.deviceName exEntry.desktopPublicKey) ∈
      (handleClaimPairing exStPending exMobile (some "C") (some "PKM") 1).2 ∧
    handleClaimPairing (handleClaimPairing exStPending exMobile (some "C") (some "PKM") 1).1
        exMobileU2 (some "C") (some "PKM2") 2 =
      ((handleClaimPairing exStPending exMobile (some "C") (some "PKM") 1).1,
       [Eff.send exMobileU2.ws (Frame.error "Invalid or expired pairing code")])) :=
  ⟨rfl, claim_consumes_code_once exStPending exMobile exMobileU2 (some "C")
    (some "PKM") (some "PKM2") 1 2 exEntry rfl rfl rfl rfl rfl (by decide) rfl rfl⟩

-- ══════════════════════════════════════════════════════════════════════
-- C8
-- ══════════════════════════════════════════════════════════════════════

/-- C8: from remote or unlocking with controller `d`, `tryUnlock` with the
stored secret ends in local with the controller reference discarded and
sends control-revoked to `d`; with a wrong secret it ends in unlocking
with the same controller and sends no control-revoked. -/
theorem tryUnlock_spec (st : RemoteControlState) (d p : String)
    (hmode : st.mode = "remote" ∨ st.mode = "unlocking")
    (hctl : st.controllingDeviceId = some d)
    (hp : p ≠ st.lockPassword) :
    tryUnlock st st.lockPassword =
      (true, { mode := "local", controllingDeviceId := none,
               controllingDeviceName := none, lockPassword := st.lockPassword },
       [d]) ∧
    tryUnlock st p = (false, { st with mode := "unlocking" }, []) := by
  obtain ⟨m, ci, cn, lp⟩ := st
  simp only at hctl hp
  subst hctl
  rcases hmode with h | h <;> simp only at h <;> subst h <;>
    exact ⟨by simp [tryUnlock], by simp [tryUnlock, hp]⟩

/-- Witness for `tryUnlock_spec` at concrete inputs. -/
theorem tryUnlock_spec_witness :
    ("000000" : String) ≠ exRC.lockPassword ∧
    (tryUnlock exRC exRC.lockPassword =
      (true, { mode := "local", controllingDeviceId := none,
               controllingDeviceName := none, lockPassword := exRC.lockPassword },
       ["M"]) ∧
    tryUnlock exRC "000000" = (false, { exRC with mode := "unlocking" }, [])) :=
  ⟨by decide, tryUnlock_spec exRC "M" "000000" (Or.inl rfl) rfl (by decide)⟩

-- ══════════════════════════════════════════════════════════════════════
-- C9
-- ══════════════════════════════════════════════════════════════════════

/-- C10: control-ack and control-revoked are forwarded to whatever
attached device the `to` field names, for any sender — no role check, no
pairing check and no userId check (the hypotheses constrain only the
target being attached); control-request instead errors for a non-mobile
sender and for a mobile sender not paired with the target. -/
theorem control_forward_unchecked (st : ServerState)
    (device devNonMobile devMobile target : ConnectedDevice)
    (tid : String) (accepted : Option Bool)
    (hne : falsy (some tid) = false)
    (ht : mapGet st.devices tid = some target)
    (hrole : devNonMobile.deviceType ≠ "mobile")
    (hrole2 : devMobile.deviceType = "mobile")
    (hunpaired : st.pairedRelations.any
      (fun r => r.desktopId == tid && r.mobileId == devMobile.deviceId) = false) :
    handleControlAck st device (some tid) accepted =
      [Eff.send target.ws (Frame.controlAck device.deviceId accepted)] ∧
    handleControlRevoked st device (some tid) =
      [Eff.send target.ws (Frame.controlRevoked device.deviceId)] ∧
    handleControlRequest st devNonMobile (some tid) =
      [Eff.send devNonMobile.ws (Frame.error "Only mobile can request control")] ∧
    handleControlRequest st devMobile (some tid) =
      [Eff.send devMobile.ws (Frame.error "Not paired with target desktop")] := by
  refine ⟨?_, ?_, ?_, ?_⟩
  · simp [handleControlAck, hne, ht]
  · simp [handleControlRevoked, hne, ht]
  · simp [handleControlRequest, hrole]
  · simp [handleControlRequest, hrole2, hne, hunpaired]

/-- Witness for `control_forward_unchecked` at concrete inputs: the
sender of the forwarded control-ack is a desktop of a DIFFERENT user
with no pairing to the target, and it is still forwarded. -/
theorem control_forward_unchecked_witness :
    mapGet exState.devices "M" = some exMobile ∧
    (handleControlAck exState exDesktopU2 (some "M") (some true) =
      [Eff.send exMobile.ws (Frame.controlAck exDesktopU2.deviceId (some true))] ∧
    handleControlRevoked exState exDesktopU2 (some "M") =
      [Eff.send exMobile.ws (Frame.controlRevoked exDesktopU2.deviceId)] ∧
    handleControlRequest exState exDesktopU2 (some "M") =
      [Eff.send exDesktopU2.ws (Frame.error "Only mobile can request control")] ∧
    handleControlRequest exState exMobileU2 (some "M") =
      [Eff.send exMobileU2.ws (Frame.error "Not paired with target desktop")]) :=
  ⟨rfl, control_forward_unchecked exState exDesktopU2 exDesktopU2 exMobileU2
    exMobile "M" (some true) rfl rfl (by decide) rfl (by decide)⟩
